import Mathlib

/-!
Verification of the polyverify signature/proof verification pipeline.

We give a shallow embedding of:
* the byte-level ABI encoding and digest construction shared by the off-chain
  signer (`signProofPayload`, `recoverSignerFromSignature`), the backend
  (`buildProofDigest`) and the on-chain verifier (`ZKVerifierGroth16.verifyProof`);
* the `ProofVerifier` contract as an explicit state machine with EVM revert
  semantics (`Except`: an error means the transaction reverts and no state
  change is committed);
* the `ZKVerifierGroth16` contract's `verifyProof` dispatch.

External cryptographic primitives (keccak256, secp256k1 sign/ecrecover) and
external collaborator contracts (the AuditorRegistry, the pluggable Groth16
pairing verifier) are modelled as explicit function parameters / oracles, so
every theorem quantifies over their behaviour; the repository-level content —
byte layouts, check ordering, state transitions — is translated literally from
the source.

Bytes are `Nat`s below 256 inside `List Nat`; 256-bit words and addresses are
`Nat` with explicit `% 2 ^ 256` reductions where the code truncates.
-/

namespace Polyverify

/-- Big-endian byte serialization of `v` into exactly `n` bytes (the value is
taken modulo `256 ^ n`, as in EVM word stores and `ethers.zeroPadValue`). -/
def natToBeBytes : Nat → Nat → List Nat
  | 0, _ => []
  | n + 1, v => natToBeBytes n (v / 256) ++ [v % 256]

/-- Big-endian interpretation of a byte list as a natural number. -/
def beBytesToNat (bs : List Nat) : Nat :=
  bs.foldl (fun acc b => acc * 256 + b) 0

theorem natToBeBytes_length (n v : Nat) : (natToBeBytes n v).length = n := by
  induction n generalizing v with
  | zero => rfl
  | succ m ih => simp [natToBeBytes, ih]

theorem beBytesToNat_append_one (xs : List Nat) (b : Nat) :
    beBytesToNat (xs ++ [b]) = beBytesToNat xs * 256 + b := by
  simp [beBytesToNat, List.foldl_append]

theorem beBytesToNat_natToBeBytes (n v : Nat) :
    beBytesToNat (natToBeBytes n v) = v % 256 ^ n := by
  induction n generalizing v with
  | zero => simp [natToBeBytes, beBytesToNat, Nat.mod_one]
  | succ m ih =>
    rw [natToBeBytes, beBytesToNat_append_one, ih]
    rw [pow_succ, Nat.mul_comm (256 ^ m) 256, Nat.mod_mul]
    ring

/-- The first byte of an `n+1`-byte big-endian serialization. -/
theorem natToBeBytes_head (n v : Nat) :
    (natToBeBytes (n + 1) v).getD 0 0 = v / 256 ^ n % 256 := by
  induction n generalizing v with
  | zero => simp [natToBeBytes]
  | succ m ih =>
    have h1 : natToBeBytes (m + 2) v
        = natToBeBytes (m + 1) (v / 256) ++ [v % 256] := rfl
    have hlen : 0 < (natToBeBytes (m + 1) (v / 256)).length := by
      rw [natToBeBytes_length]; omega
    rw [h1]
    rcases h2 : natToBeBytes (m + 1) (v / 256) with _ | ⟨a, t⟩
    · rw [h2] at hlen; simp at hlen
    · have := ih (v / 256)
      rw [h2] at this
      simp only [List.cons_append, List.getD, List.get?] at this ⊢
      rw [this, Nat.div_div_eq_div_mul, ← pow_succ']

/-- ABI word encoding: a `uint256` (or an address / `bytes32` value) is its
32-byte big-endian representation, left-padded with zeros. -/
def abiWord (v : Nat) : List Nat := natToBeBytes 32 v

/-- `abi.encode` of a single dynamic `uint256[]` argument: a 32-byte offset
(0x20), the 32-byte length, then the 32-byte elements in order.  This is what
both `abi.encode(publicInputs)` in the contract and
`AbiCoder.defaultAbiCoder().encode(["uint256[]"], [publicInputs])` in the
backend produce. -/
def abiEncodeUint256Array (xs : List Nat) : List Nat :=
  abiWord 32 ++ abiWord xs.length ++ (xs.map abiWord).flatten

/-- The static six-tuple `abi.encode(address, bytes32, address, address,
bytes32, bytes32)`: six 32-byte head words concatenated. The two trailing
`bytes32` values arrive as raw 32-byte keccak outputs. -/
def abiEncodeSixTuple (verifier proofId issuer subject : Nat)
    (proofHash inputsHash : List Nat) : List Nat :=
  abiWord verifier ++ abiWord proofId ++ abiWord issuer ++ abiWord subject ++
    proofHash ++ inputsHash

/-- Digest construction of the off-chain signer (`signProofPayload`,
src/unnamed/part_004 lines 68–103): `proofHash = keccak256(proofBytes)`,
`inputsHash = keccak256(abiEncode(uint256[], publicInputs))`, then
`keccak256(abiEncode(address, bytes32, address, address, bytes32, bytes32))`
over `(zkVerifierAddr, proofId, issuer, subject, proofHash, inputsHash)`.
The keccak256 primitive is the explicit parameter `k`. -/
def signerDigest (k : List Nat → List Nat) (zkVerifierAddr proofId issuer subject : Nat)
    (proofBytes : List Nat) (publicInputs : List Nat) : List Nat :=
  let proofHash := k proofBytes
  let inputsHash := k (abiEncodeUint256Array publicInputs)
  k (abiEncodeSixTuple zkVerifierAddr proofId issuer subject proofHash inputsHash)

/-- The backend service's `buildProofDigest` (src/unnamed/part_005 lines
219–233).  It receives `credentialId` as its first argument but never uses it,
and reads the verifier address from the `ZK_VERIFIER_ADDRESS` configuration
(passed here as `zkVerifierConfig`). -/
def buildProofDigest (k : List Nat → List Nat) (zkVerifierConfig : Nat)
    (credentialId proofId issuer subject : Nat)
    (proofBytes : List Nat) (publicInputs : List Nat) : List Nat :=
  let proofHash := k proofBytes
  let inputsHash := k (abiEncodeUint256Array publicInputs)
  k (abiEncodeSixTuple zkVerifierConfig proofId issuer subject proofHash inputsHash)

/-- The on-chain `messageHash` computed inside `ZKVerifierGroth16.verifyProof`
(src/contracts/ZKVerifierGroth16.sol lines 115–125):
`keccak256(abi.encode(address(this), payload.proofId, payload.issuer,
payload.subject, keccak256(payload.proof), keccak256(abi.encode(publicInputs))))`.
`selfAddr` stands for `address(this)`. -/
def zkMessageHash (k : List Nat → List Nat) (selfAddr proofId issuer subject : Nat)
    (proofBytes : List Nat) (publicInputs : List Nat) : List Nat :=
  let inputsHash := k (abiEncodeUint256Array publicInputs)
  k (abiEncodeSixTuple selfAddr proofId issuer subject (k proofBytes) inputsHash)

/-- Claim C1: for every input tuple (verifier address, proofId, issuer,
subject, proof bytes, public inputs) in the valid ABI ranges, the digest
computed by the off-chain signer, the digest computed by the backend's
`buildProofDigest` (for any `credentialId`, which it ignores), and the
on-chain `messageHash` of `ZKVerifierGroth16.verifyProof` are equal
bit-for-bit, for every keccak256 primitive `k`. -/
theorem digest_builder_agreement (k : List Nat → List Nat)
    (zkVerifierAddr proofId issuer subject credentialId : Nat)
    (proofBytes publicInputs : List Nat)
    (hv : zkVerifierAddr < 2 ^ 160) (hi : issuer < 2 ^ 160)
    (hs : subject < 2 ^ 160) (hp : proofId < 2 ^ 256)
    (hpis : ∀ x ∈ publicInputs, x < 2 ^ 256) :
    signerDigest k zkVerifierAddr proofId issuer subject proofBytes publicInputs
      = zkMessageHash k zkVerifierAddr proofId issuer subject proofBytes publicInputs
    ∧ signerDigest k zkVerifierAddr proofId issuer subject proofBytes publicInputs
      = buildProofDigest k zkVerifierAddr credentialId proofId issuer subject
          proofBytes publicInputs := by
  exact ⟨rfl, rfl⟩

/-- Witness for C1: the hypotheses are satisfiable at a concrete input and the
equalities evaluate there. -/
theorem digest_builder_agreement_witness :
    signerDigest (fun bs => [bs.length % 256]) 3 5 7 11 [1, 2] [13, 17, 19]
      = zkMessageHash (fun bs => [bs.length % 256]) 3 5 7 11 [1, 2] [13, 17, 19]
    ∧ signerDigest (fun bs => [bs.length % 256]) 3 5 7 11 [1, 2] [13, 17, 19]
      = buildProofDigest (fun bs => [bs.length % 256]) 3 23 5 7 11 [1, 2] [13, 17, 19] :=
  digest_builder_agreement (fun bs => [bs.length % 256]) 3 5 7 11 23 [1, 2] [13, 17, 19]
    (by norm_num) (by norm_num) (by norm_num) (by norm_num)
    (by intro x hx; fin_cases hx <;> norm_num)

/-- UTF-8 bytes of the EIP-191 personal-sign prefix
`"\x19Ethereum Signed Message:\n32"` prepended by both sides before hashing. -/
def ethMessagePrefixBytes : List Nat :=
  [0x19, 69, 116, 104, 101, 114, 101, 117, 109, 32, 83, 105, 103, 110, 101, 100,
   32, 77, 101, 115, 115, 97, 103, 101, 58, 10, 51, 50]

/-- Model of the ethers v6 `Signature.from` parser on a raw byte signature, as
invoked by `ethers.recoverAddress` in `recoverSignerFromSignature`
(src/unnamed/part_004 line 216).  It accepts 64-byte EIP-2098 compact
signatures (`r`, `yParityAndS`) and 65-byte `r ‖ s ‖ v` signatures requiring a
canonical `s` (top bit clear); the `v` byte goes through `getNormalizedV`:
0 and 27 become 27, 1 and 28 become 28, any value of at least 35 is
normalized by EIP-155 parity (odd to 27, even to 28), and the remaining
values (2–26 and 29–34) raise an error (in JS a thrown assertArgument
exception, rendered here as `Except.error`). -/
def ethersSignatureFrom (sig : List Nat) : Except String (Nat × Nat × Nat) :=
  if sig.length = 64 then
    Except.ok (beBytesToNat (sig.take 32), beBytesToNat (sig.drop 32) % 2 ^ 255,
      27 + beBytesToNat (sig.drop 32) / 2 ^ 255)
  else if sig.length = 65 then
    if 128 ≤ sig.getD 32 0 then Except.error ("non-canonical s")
    else if sig.getD 64 0 = 0 ∨ sig.getD 64 0 = 27 then
      Except.ok (beBytesToNat (sig.take 32), beBytesToNat ((sig.drop 32).take 32), 27)
    else if sig.getD 64 0 = 1 ∨ sig.getD 64 0 = 28 then
      Except.ok (beBytesToNat (sig.take 32), beBytesToNat ((sig.drop 32).take 32), 28)
    else if 35 ≤ sig.getD 64 0 then
      if sig.getD 64 0 % 2 = 1 then
        Except.ok (beBytesToNat (sig.take 32), beBytesToNat ((sig.drop 32).take 32), 27)
      else
        Except.ok (beBytesToNat (sig.take 32), beBytesToNat ((sig.drop 32).take 32), 28)
    else Except.error ("invalid v byte")
  else Except.error ("invalid raw signature length")

/-- The order of the secp256k1 group,
`0xFFFFFFFFFFFFFFFFFFFFFFFFFFFFFFFEBAAEDCE6AF48A03BBFD25E8CD0364141`. -/
def secp256k1N : Nat :=
  115792089237316195423570985008687907852837564279074904382605163141518161494337

/-- EIP-191 prefixing step shared by both sides: prepend the prefix to the
32-byte digest and keccak the result. -/
def ethSignedHash (k : List Nat → List Nat) (digest : List Nat) : List Nat :=
  k (ethMessagePrefixBytes ++ digest)

/-- Serialization of an `(r, s, v)` signature triple into the 65-byte
`r ‖ s ‖ v` wire format returned by ethers. -/
def serializeSig (rsv : Nat × Nat × Nat) : List Nat :=
  natToBeBytes 32 rsv.1 ++ natToBeBytes 32 rsv.2.1 ++ [rsv.2.2]

/-- The post-signing sanity checks of `signProofPayload` (src/unnamed/part_004
lines 112–130): the serialized signature must be 65 bytes and its final byte
must be 27 or 28, otherwise an error is thrown. -/
def signedPayloadCheck (sig : List Nat) : Except String (List Nat) :=
  if sig.length ≠ 65 then Except.error ("Invalid signature byte length")
  else if sig.getD 64 0 ≠ 27 ∧ sig.getD 64 0 ≠ 28 then Except.error ("Invalid v value")
  else Except.ok sig

/-- The off-chain signer `signProofPayload` (src/unnamed/part_004 lines
38–136): build the digest, EIP-191-prefix and hash it, ECDSA-sign, serialize
as `r ‖ s ‖ v` (65 bytes), then sanity-check the length and the `v` byte.
The secp256k1 signing primitive (inside ethers `Wallet.signMessage`) is the
parameter `sg`, returning `(r, s, v)`. -/
def signProofPayload (sg : Nat → List Nat → Nat × Nat × Nat)
    (k : List Nat → List Nat) (privKey zkVerifierAddr proofId issuer subject : Nat)
    (proofBytes publicInputs : List Nat) : Except String (List Nat) :=
  signedPayloadCheck (serializeSig (sg privKey (ethSignedHash k
    (signerDigest k zkVerifierAddr proofId issuer subject proofBytes publicInputs))))

/-- The recovery step of `ethers.recoverAddress` after parsing: noble's
`Signature.fromCompact` rejects `r` or `s` outside `[1, n-1]` (a thrown
RangeError, rendered as `Except.error`), and the remaining point recovery may
still fail (`r` not an x-coordinate of a curve point, or the recovered point
at infinity) — the fallible primitive `rc` answers `none` there and the
recovered address otherwise. -/
def recoverParsedSignature (rc : List Nat → Nat → Nat → Nat → Option Nat)
    (ethHash : List Nat) (rsv : Nat × Nat × Nat) : Except String Nat :=
  if rsv.1 = 0 ∨ secp256k1N ≤ rsv.1 ∨ rsv.2.1 = 0 ∨ secp256k1N ≤ rsv.2.1 then
    Except.error ("invalid signature r or s")
  else
    match rc ethHash rsv.1 rsv.2.1 rsv.2.2 with
    | none => Except.error ("recovery failed")
    | some a => Except.ok a

/-- The off-chain recoverer `recoverSignerFromSignature` (src/unnamed/part_004
lines 154–219): recompute the digest, reapply the EIP-191 prefix and hash,
then `ethers.recoverAddress` = parse the signature (`ethersSignatureFrom`),
range-check `r` and `s`, and apply the secp256k1 recovery primitive. -/
def recoverSignerFromSignature (rc : List Nat → Nat → Nat → Nat → Option Nat)
    (k : List Nat → List Nat) (zkVerifierAddr proofId issuer subject : Nat)
    (proofBytes publicInputs : List Nat) (signature : List Nat) : Except String Nat :=
  match ethersSignatureFrom signature with
  | Except.error e => Except.error e
  | Except.ok rsv => recoverParsedSignature rc (ethSignedHash k
      (signerDigest k zkVerifierAddr proofId issuer subject proofBytes publicInputs)) rsv

theorem serialize_length (rsv : Nat × Nat × Nat) : (serializeSig rsv).length = 65 := by
  simp [serializeSig, natToBeBytes_length]

theorem serialize_getD_64 (rsv : Nat × Nat × Nat) :
    (serializeSig rsv).getD 64 0 = rsv.2.2 := by
  unfold serializeSig
  rw [List.append_assoc]
  rw [List.getD_append_right _ _ _ _ (by simp [natToBeBytes_length])]
  rw [natToBeBytes_length]
  rw [List.getD_append_right _ _ _ _ (by simp [natToBeBytes_length])]
  rw [natToBeBytes_length]
  rfl

theorem serialize_getD_32 (rsv : Nat × Nat × Nat) :
    (serializeSig rsv).getD 32 0 = rsv.2.1 / 256 ^ 31 % 256 := by
  unfold serializeSig
  rw [List.append_assoc]
  rw [List.getD_append_right _ _ _ _ (by simp [natToBeBytes_length])]
  rw [natToBeBytes_length]
  rw [List.getD_append _ _ _ _ (by simp [natToBeBytes_length])]
  have := natToBeBytes_head 31 rsv.2.1
  simpa using this

theorem serialize_take_32 (rsv : Nat × Nat × Nat) :
    (serializeSig rsv).take 32 = natToBeBytes 32 rsv.1 := by
  unfold serializeSig
  rw [List.append_assoc]
  exact List.take_left' (natToBeBytes_length 32 rsv.1)

theorem serialize_drop_take (rsv : Nat × Nat × Nat) :
    ((serializeSig rsv).drop 32).take 32 = natToBeBytes 32 rsv.2.1 := by
  unfold serializeSig
  rw [List.append_assoc]
  rw [List.drop_left' (natToBeBytes_length 32 rsv.1)]
  exact List.take_left' (natToBeBytes_length 32 rsv.2.1)

theorem canonical_s_head_lt (s : Nat) (hs : s < 2 ^ 255) : s / 256 ^ 31 % 256 < 128 := by
  have h248 : (256 : ℕ) ^ 31 = 2 ^ 248 := by norm_num
  have hdiv : s / 256 ^ 31 < 128 := by
    rw [h248]
    apply Nat.div_lt_of_lt_mul
    calc s < 2 ^ 255 := hs
      _ = 2 ^ 248 * 128 := by norm_num
  calc s / 256 ^ 31 % 256 ≤ s / 256 ^ 31 := Nat.mod_le _ _
    _ < 128 := hdiv

/-- Parsing a serialized well-formed signature recovers its components. -/
theorem ethersSignatureFrom_serialize (rsv : Nat × Nat × Nat) (hr : rsv.1 < 2 ^ 256)
    (hs : rsv.2.1 < 2 ^ 255) (hv : rsv.2.2 = 27 ∨ rsv.2.2 = 28) :
    ethersSignatureFrom (serializeSig rsv) = Except.ok rsv := by
  have h256 : (2 : ℕ) ^ 256 = 256 ^ 32 := by norm_num
  have hrv : beBytesToNat (natToBeBytes 32 rsv.1) = rsv.1 := by
    rw [beBytesToNat_natToBeBytes, Nat.mod_eq_of_lt (by rw [← h256]; exact hr)]
  have hsv : beBytesToNat (natToBeBytes 32 rsv.2.1) = rsv.2.1 := by
    rw [beBytesToNat_natToBeBytes, Nat.mod_eq_of_lt]
    rw [← h256]
    exact lt_trans hs (by norm_num)
  have hcanon : ¬ (128 ≤ (serializeSig rsv).getD 32 0) := by
    rw [serialize_getD_32]
    push_neg
    exact canonical_s_head_lt rsv.2.1 hs
  unfold ethersSignatureFrom
  rw [if_neg (by rw [serialize_length]; omega), if_pos (serialize_length rsv),
    if_neg hcanon, serialize_getD_64, serialize_take_32, serialize_drop_take, hrv, hsv]
  rcases hv with h | h <;> rw [h]
  · rw [if_pos (Or.inr rfl)]
    rw [← h]
  · rw [if_neg (by omega), if_pos (Or.inr rfl)]
    rw [← h]

/-- Claim C2: for all digest-construction inputs and every private key, the
signer produces a 65-byte signature from which `recoverSignerFromSignature`
recovers exactly the address of that private key.  The secp256k1 primitives
are abstracted as `sg` (signing), `rc` (recovery) and `addrOf`
(key-to-address), constrained only by the standard recovery law and by the
shape guarantees of ethers signing: r and s in `[1, n-1]` with the low-s
normalization (s below 2^255), and v in 27, 28. -/
theorem sign_recover_roundtrip (sg : Nat → List Nat → Nat × Nat × Nat)
    (rc : List Nat → Nat → Nat → Nat → Option Nat) (addrOf : Nat → Nat)
    (k : List Nat → List Nat) (privKey zkVerifierAddr proofId issuer subject : Nat)
    (proofBytes publicInputs : List Nat)
    (hlaw : ∀ key h, rc h (sg key h).1 (sg key h).2.1 (sg key h).2.2 = some (addrOf key))
    (hr : ∀ key h, 0 < (sg key h).1 ∧ (sg key h).1 < secp256k1N)
    (hs : ∀ key h, 0 < (sg key h).2.1 ∧ (sg key h).2.1 < 2 ^ 255)
    (hv : ∀ key h, (sg key h).2.2 = 27 ∨ (sg key h).2.2 = 28) :
    ∃ sig, signProofPayload sg k privKey zkVerifierAddr proofId issuer subject
        proofBytes publicInputs = Except.ok sig
      ∧ recoverSignerFromSignature rc k zkVerifierAddr proofId issuer subject
          proofBytes publicInputs sig = Except.ok (addrOf privKey) := by
  have hNlt : secp256k1N < 2 ^ 256 := by norm_num [secp256k1N]
  have hNgt : (2 : ℕ) ^ 255 < secp256k1N := by norm_num [secp256k1N]
  set ethHash := ethSignedHash k
    (signerDigest k zkVerifierAddr proofId issuer subject proofBytes publicInputs) with hEth
  refine ⟨serializeSig (sg privKey ethHash), ?_, ?_⟩
  · unfold signProofPayload
    rw [← hEth]
    unfold signedPayloadCheck
    rw [if_neg (by rw [serialize_length]; omega)]
    rw [if_neg (by rw [serialize_getD_64]; rcases hv privKey ethHash with h | h <;> omega)]
  · unfold recoverSignerFromSignature
    rw [← hEth]
    rw [ethersSignatureFrom_serialize _ (lt_trans (hr privKey ethHash).2 hNlt)
      (hs privKey ethHash).2 (hv privKey ethHash)]
    show recoverParsedSignature rc ethHash (sg privKey ethHash)
      = Except.ok (addrOf privKey)
    unfold recoverParsedSignature
    rw [if_neg (by
      push_neg
      exact ⟨Nat.pos_iff_ne_zero.mp (hr privKey ethHash).1, (hr privKey ethHash).2,
        Nat.pos_iff_ne_zero.mp (hs privKey ethHash).1,
        lt_trans (hs privKey ethHash).2 hNgt⟩)]
    rw [hlaw privKey ethHash]

/-- Witness for C2: the crypto-law hypotheses are satisfiable (a toy scheme
where the address is the key reduced mod 2^160, shifted into `[1, n-1]`) and
the round trip then evaluates on concrete inputs. -/
theorem sign_recover_roundtrip_witness :
    ∃ sig, signProofPayload (fun key _ => (key % 2 ^ 160 + 1, 1, 27))
        (fun bs => bs.take 32) 42 3 5 7 11 [1, 2] [13, 17, 19] = Except.ok sig
      ∧ recoverSignerFromSignature (fun _ r _ _ => some r) (fun bs => bs.take 32)
          3 5 7 11 [1, 2] [13, 17, 19] sig = Except.ok (42 % 2 ^ 160 + 1) :=
  sign_recover_roundtrip (fun key _ => (key % 2 ^ 160 + 1, 1, 27)) (fun _ r _ _ => some r)
    (fun key => key % 2 ^ 160 + 1) (fun bs => bs.take 32) 42 3 5 7 11 [1, 2] [13, 17, 19]
    (fun _ _ => rfl)
    (fun key _ => ⟨Nat.succ_pos _,
      lt_of_lt_of_le (by exact Nat.succ_lt_succ (Nat.mod_lt key (by norm_num)))
        (by norm_num [secp256k1N])⟩)
    (fun _ _ => ⟨Nat.one_pos, by norm_num⟩)
    (fun _ _ => Or.inl rfl)

/-- Counterexample to claim C8 as stated: a 65-byte signature whose `v` byte
is 0 (so v is not in 27, 28) does not produce a recovery-failure result.  The
real-world scenario: take any genuinely signed message and re-encode its `v`
byte as 0; ethers normalizes 0 back to 27 and `recoverAddress` returns an
address.  Concretely, `r` here is the x-coordinate of the secp256k1 generator
(so it is in `[1, n-1]` and is the x-coordinate of a curve point) and `s = 2`,
so the parse and the noble range check provably pass and the remaining point
recovery yields a point (the recovery oracle answers `some`; its `none`
branch covers the degenerate zero inputs noble rejects, which do not occur
here).  The recoverer returns an address instead of a failure. -/
theorem recover_v_zero_succeeds_cex :
    (serializeSig
        (0x79BE667EF9DCBBAC55A06295CE870B07029BFCDB2DCE28D959F2815B16F81798, 2, 0)).length
      = 65
    ∧ (serializeSig
        (0x79BE667EF9DCBBAC55A06295CE870B07029BFCDB2DCE28D959F2815B16F81798, 2, 0)).getD
        64 0 ≠ 27
    ∧ (serializeSig
        (0x79BE667EF9DCBBAC55A06295CE870B07029BFCDB2DCE28D959F2815B16F81798, 2, 0)).getD
        64 0 ≠ 28
    ∧ (recoverSignerFromSignature
        (fun _ r s _ => if r = 0 ∨ s = 0 then none else some 9) (fun _ => []) 1 2 3 4 [] []
        (serializeSig
          (0x79BE667EF9DCBBAC55A06295CE870B07029BFCDB2DCE28D959F2815B16F81798, 2, 0))).isOk
      = true := by
  refine ⟨?_, ?_, ?_, ?_⟩
  · rw [serialize_length]
  · rw [serialize_getD_64]
    decide
  · rw [serialize_getD_64]
    decide
  · rfl

/-- Claim C8 as amended: the recoverer raises a recognizable error — in JS a
thrown ethers exception, rendered here as an error value, never a silent
wrong answer — when the signature length is neither 64 nor 65 bytes, when a
65-byte signature has a non-canonical `s` (top bit set) or a `v` byte in the
ranges 2–26 or 29–34 (ethers accepts 0, 1, 27, 28 and normalizes any v of at
least 35 by EIP-155 parity), and when the parsed `r` or `s` lies outside
`[1, n-1]` for the secp256k1 order `n`; a 65-byte signature with v in 0, 1 is
normalized by +27 and recovery proceeds, returning an address. -/
theorem recover_invalid_signature_errors :
    (∀ (rc : List Nat → Nat → Nat → Nat → Option Nat) (k : List Nat → List Nat)
        (zkVerifierAddr proofId issuer subject : Nat)
        (proofBytes publicInputs signature : List Nat),
      (signature.length ≠ 64 ∧ signature.length ≠ 65)
        ∨ (signature.length = 65 ∧ 128 ≤ signature.getD 32 0)
        ∨ (signature.length = 65 ∧ signature.getD 32 0 < 128
            ∧ signature.getD 64 0 ≠ 0 ∧ signature.getD 64 0 ≠ 1
            ∧ signature.getD 64 0 ≠ 27 ∧ signature.getD 64 0 ≠ 28
            ∧ signature.getD 64 0 < 35) →
      ∃ e, recoverSignerFromSignature rc k zkVerifierAddr proofId issuer subject
        proofBytes publicInputs signature = Except.error e)
    ∧ (∀ (rc : List Nat → Nat → Nat → Nat → Option Nat) (k : List Nat → List Nat)
        (zkVerifierAddr proofId issuer subject : Nat)
        (proofBytes publicInputs signature : List Nat) (r sv v : Nat),
      ethersSignatureFrom signature = Except.ok (r, sv, v) →
      (r = 0 ∨ secp256k1N ≤ r ∨ sv = 0 ∨ secp256k1N ≤ sv) →
      recoverSignerFromSignature rc k zkVerifierAddr proofId issuer subject
        proofBytes publicInputs signature = Except.error ("invalid signature r or s")) := by
  constructor
  · intro rc k zkVerifierAddr proofId issuer subject proofBytes publicInputs signature hbad
    unfold recoverSignerFromSignature ethersSignatureFrom
    rcases hbad with ⟨h64, h65⟩ | ⟨h65, hs⟩ | ⟨h65, hs, h0, h1, h27, h28, h35⟩
    · rw [if_neg h64, if_neg h65]
      exact ⟨_, rfl⟩
    · rw [if_neg (by omega), if_pos h65, if_pos hs]
      exact ⟨_, rfl⟩
    · rw [if_neg (by omega), if_pos h65, if_neg (by omega),
        if_neg (by push_neg; exact ⟨h0, h27⟩), if_neg (by push_neg; exact ⟨h1, h28⟩),
        if_neg (by omega)]
      exact ⟨_, rfl⟩
  · intro rc k zkVerifierAddr proofId issuer subject proofBytes publicInputs signature
      r sv v hparse hrange
    unfold recoverSignerFromSignature
    rw [hparse]
    show recoverParsedSignature rc _ (r, sv, v) = Except.error ("invalid signature r or s")
    unfold recoverParsedSignature
    rw [if_pos hrange]

/-- Witness for the amended C8: a concrete invalid-length input errors, via
the length-and-v conjunct of the theorem. -/
theorem recover_invalid_signature_errors_witness :
    ∃ e, recoverSignerFromSignature (fun _ _ _ _ => some 0) (fun _ => []) 1 2 3 4 [] []
      [1, 2, 3] = Except.error e :=
  recover_invalid_signature_errors.1 (fun _ _ _ _ => some 0) (fun _ => []) 1 2 3 4 [] []
    [1, 2, 3] (Or.inl (by decide))

/-- The transaction environment: caller, block timestamp, the executing
contract's own address, and the external primitives and collaborator state the
contracts invoke — keccak256, `ecrecover(hash, v, r, s)`, the AuditorRegistry
collaborator's `isApprovedAuditor` answer, the pluggable
`IZKVerifier.verifyProof` backend's answer (payload fields then public
inputs), the pluggable Groth16 pairing verifier's answer (8 decoded proof
words, 3 public signals), and the AuditorRegistry collaborator's stored
`proofVerifier` address, against which its `incrementCredentialCount` checks
its caller. -/
structure Env where
  caller : Nat
  timestamp : Nat
  selfAddr : Nat
  keccak : List Nat → List Nat
  ecrec : List Nat → Nat → Nat → Nat → Nat
  isApprovedAud : Nat → Bool
  zkVerify : Nat → Nat → Nat → List Nat → List Nat → List Nat → Bool
  groth16Check : List Nat → List Nat → Bool
  regProofVerifier : Nat

/-- Storage of the `ZKVerifierGroth16` contract. -/
structure ZKVState where
  admin : Nat
  trustedProver : Nat
  groth16Verifier : Nat

/-- The `v` normalization both contracts apply before `ecrecover`: raw bytes
below 27 are shifted by +27. -/
def normalizeV (v : Nat) : Nat := if v < 27 then v + 27 else v

/-- `abi.decode(proofBytes, (uint256[8]))`: the first 8 32-byte words. -/
def abiDecodeWords (n : Nat) (bs : List Nat) : List Nat :=
  (List.range n).map (fun i => beBytesToNat ((bs.drop (32 * i)).take 32))

/-- `ZKVerifierGroth16._recoverSigner` (src/contracts/ZKVerifierGroth16.sol
lines 170–191): EIP-191-prefix the message hash, split the 65-byte signature
into `r`, `s`, `v`, normalize `v`, require it to be 27 or 28, then
`ecrecover`. -/
def zkRecoverSigner (env : Env) (messageHash signature : List Nat) : Except String Nat :=
  if normalizeV (signature.getD 64 0) = 27 ∨ normalizeV (signature.getD 64 0) = 28 then
    Except.ok (env.ecrec (ethSignedHash env.keccak messageHash)
      (normalizeV (signature.getD 64 0))
      (beBytesToNat (signature.take 32))
      (beBytesToNat ((signature.drop 32).take 32)))
  else Except.error ("Invalid v value")

/-- The signature fallback branch of `ZKVerifierGroth16.verifyProof`
(src/contracts/ZKVerifierGroth16.sol lines 111–141): require a configured
trusted prover and a 65-byte signature, recover the signer of the message
hash, and require it to equal the trusted prover. -/
def zkSignatureFallback (env : Env) (s : ZKVState) (proofId issuer subject : Nat)
    (proof signature publicInputs : List Nat) : Except String Bool :=
  if s.trustedProver = 0 then Except.error ("Prover not configured")
  else if signature.length ≠ 65 then Except.error ("Invalid signature length")
  else
    match zkRecoverSigner env
      (zkMessageHash env.keccak env.selfAddr proofId issuer subject proof publicInputs)
      signature with
    | Except.error e => Except.error e
    | Except.ok signer =>
        if signer = s.trustedProver then Except.ok true
        else Except.error ("Invalid proof signature")

/-- `ZKVerifierGroth16.verifyProof` (src/contracts/ZKVerifierGroth16.sol lines
90–141): when a Groth16 verifier is configured and the proof is at least 256
bytes, try the Groth16 check (`_verifyGroth16Proof`, which returns false
unless there are exactly 3 public inputs, and whose external pairing-verifier
call is the oracle `env.groth16Check` — a revert inside the try/catch also
yields false); on Groth16 success return true, otherwise fall back to
signature verification. -/
def zkVerifyProof (env : Env) (s : ZKVState) (proofId issuer subject : Nat)
    (proof signature publicInputs : List Nat) : Except String Bool :=
  if s.groth16Verifier ≠ 0 ∧ 256 ≤ proof.length then
    if (if publicInputs.length ≠ 3 then false
        else env.groth16Check (abiDecodeWords 8 proof) (publicInputs.take 3)) then
      Except.ok true
    else zkSignatureFallback env s proofId issuer subject proof signature publicInputs
  else zkSignatureFallback env s proofId issuer subject proof signature publicInputs

theorem zkVerifyProof_fallback (env : Env) (s : ZKVState) (proofId issuer subject : Nat)
    (proof signature publicInputs : List Nat)
    (hfb : s.groth16Verifier = 0 ∨ proof.length < 256) :
    zkVerifyProof env s proofId issuer subject proof signature publicInputs
      = zkSignatureFallback env s proofId issuer subject proof signature publicInputs := by
  unfold zkVerifyProof
  rw [if_neg]
  rintro ⟨h1, h2⟩
  rcases hfb with h | h
  · exact h1 h
  · omega

/-- Claim C7: whenever the Groth16 verifier is unset or the proof is shorter
than 256 bytes, `ZKVerifierGroth16.verifyProof` takes the signature fallback:
it returns true exactly when a trusted prover is configured, the signature is
65 bytes, and the recovered signer is the trusted prover; in every other case
it fails (reverts) — it never returns false. -/
theorem groth16_fallback_signature_path (env : Env) (s : ZKVState)
    (proofId issuer subject : Nat) (proof signature publicInputs : List Nat)
    (hfb : s.groth16Verifier = 0 ∨ proof.length < 256) :
    (zkVerifyProof env s proofId issuer subject proof signature publicInputs
        = Except.ok true
      ↔ s.trustedProver ≠ 0 ∧ signature.length = 65
        ∧ zkRecoverSigner env (zkMessageHash env.keccak env.selfAddr proofId issuer
            subject proof publicInputs) signature = Except.ok s.trustedProver)
    ∧ (¬ (s.trustedProver ≠ 0 ∧ signature.length = 65
        ∧ zkRecoverSigner env (zkMessageHash env.keccak env.selfAddr proofId issuer
            subject proof publicInputs) signature = Except.ok s.trustedProver) →
      ∃ e, zkVerifyProof env s proofId issuer subject proof signature publicInputs
        = Except.error e) := by
  rw [zkVerifyProof_fallback env s proofId issuer subject proof signature publicInputs hfb]
  unfold zkSignatureFallback
  by_cases h0 : s.trustedProver = 0
  · rw [if_pos h0]
    constructor
    · constructor
      · intro hc
        cases hc
      · rintro ⟨hne, _⟩
        exact absurd h0 hne
    · intro _
      exact ⟨_, rfl⟩
  · rw [if_neg h0]
    by_cases hlen : signature.length ≠ 65
    · rw [if_pos hlen]
      constructor
      · constructor
        · intro hc
          cases hc
        · rintro ⟨_, hl, _⟩
          exact absurd hl hlen
      · intro _
        exact ⟨_, rfl⟩
    · rw [if_neg hlen]
      push_neg at hlen
      rcases hrec : zkRecoverSigner env (zkMessageHash env.keccak env.selfAddr proofId
        issuer subject proof publicInputs) signature with e | signer
      · constructor
        · constructor
          · intro hc
            cases hc
          · rintro ⟨_, _, hr⟩
            cases hr
        · intro _
          exact ⟨_, rfl⟩
      · by_cases hsig : signer = s.trustedProver
        · subst hsig
          constructor
          · constructor
            · intro _
              exact ⟨h0, hlen, rfl⟩
            · intro _
              rw [show (match Except.ok s.trustedProver with
                  | Except.error e => (Except.error e : Except String Bool)
                  | Except.ok signer => if signer = s.trustedProver then Except.ok true
                      else Except.error ("Invalid proof signature"))
                = (if s.trustedProver = s.trustedProver then Except.ok true
                      else Except.error ("Invalid proof signature")) from rfl,
                if_pos rfl]
          · intro hc
            exact absurd ⟨h0, hlen, rfl⟩ hc
        · constructor
          · constructor
            · intro hc
              rw [show (match Except.ok signer with
                  | Except.error e => (Except.error e : Except String Bool)
                  | Except.ok signer => if signer = s.trustedProver then Except.ok true
                      else Except.error ("Invalid proof signature"))
                = (if signer = s.trustedProver then Except.ok true
                      else Except.error ("Invalid proof signature")) from rfl,
                if_neg hsig] at hc
              cases hc
            · rintro ⟨_, _, hr⟩
              injection hr with hr'
              exact absurd hr' hsig
          · intro _
            exact ⟨"Invalid proof signature", by
              rw [show (match Except.ok signer with
                  | Except.error e => (Except.error e : Except String Bool)
                  | Except.ok signer => if signer = s.trustedProver then Except.ok true
                      else Except.error ("Invalid proof signature"))
                = (if signer = s.trustedProver then Except.ok true
                      else Except.error ("Invalid proof signature")) from rfl,
                if_neg hsig]⟩

/-- Witness for C7: a concrete fallback-path call that succeeds, obtained by
applying the fallback theorem with its hypothesis discharged concretely. -/
theorem groth16_fallback_signature_path_witness :
    zkVerifyProof ⟨1, 0, 2, fun _ => [], fun _ _ _ _ => 5, fun _ => false,
        fun _ _ _ _ _ _ => false, fun _ _ => false, 0⟩
      ⟨1, 5, 0⟩ 7 8 9 [1] (List.replicate 65 0) [1, 2, 3] = Except.ok true :=
  (groth16_fallback_signature_path ⟨1, 0, 2, fun _ => [], fun _ _ _ _ => 5, fun _ => false,
      fun _ _ _ _ _ _ => false, fun _ _ => false, 0⟩
    ⟨1, 5, 0⟩ 7 8 9 [1] (List.replicate 65 0) [1, 2, 3] (Or.inl rfl)).1.mpr
    (by refine ⟨by decide, by decide, ?_⟩; rfl)

/-- `ProofVerifier.CredentialData` (src/contracts/ProofVerifier.sol lines
38–44). -/
structure CredentialData where
  id : Nat
  issuer : Nat
  summaryHash : Nat
  timestamp : Nat
  signature : List Nat
deriving DecidableEq

/-- `ProofVerifier.ProofRecord` (src/contracts/ProofVerifier.sol lines
104–109). -/
structure ProofRecordData where
  project : Nat
  auditor : Nat
  summaryHash : Nat
  timestamp : Nat
deriving DecidableEq

/-- Storage of the `ProofVerifier` contract (src/contracts/ProofVerifier.sol
lines 28–36): Solidity mappings are total functions defaulting to zero
values. -/
structure PVState where
  admin : Nat
  auditorRegistry : Nat
  zkVerifier : Nat
  verified : Nat → Bool
  credentialAnchored : Nat → Bool
  proofValidated : Nat → Bool
  projectAuditor : Nat → Nat
  credentials : Nat → CredentialData
  proofRecords : Nat → ProofRecordData

/-- Point update of a Solidity mapping. -/
def updMap {α : Type} (f : Nat → α) (key : Nat) (val : α) : Nat → α :=
  fun x => if x = key then val else f x

/-- The `ProofVerifier` constructor (src/contracts/ProofVerifier.sol lines
97–103): admin is the deployer, the registry address is stored as given, the
zkVerifier is stored only when non-zero, and all mappings start at Solidity
zero values. -/
def initState (deployer regAddr zkAddr : Nat) : PVState where
  admin := deployer
  auditorRegistry := regAddr
  zkVerifier := if zkAddr = 0 then 0 else zkAddr
  verified := fun _ => false
  credentialAnchored := fun _ => false
  proofValidated := fun _ => false
  projectAuditor := fun _ => 0
  credentials := fun _ => ⟨0, 0, 0, 0, []⟩
  proofRecords := fun _ => ⟨0, 0, 0, 0⟩

/-- Solidity `require(cond, msg)`: continue when the condition holds, revert
with the reason string otherwise. -/
def pvRequire {α : Type} (cond : Prop) [Decidable cond] (msg : String)
    (next : Except String α) : Except String α :=
  if cond then next else Except.error msg

theorem pvRequire_ok {α : Type} {cond : Prop} [Decidable cond] {msg : String}
    {next : Except String α} {t : α} (hok : pvRequire cond msg next = Except.ok t) :
    cond ∧ next = Except.ok t := by
  unfold pvRequire at hok
  split at hok
  · exact ⟨by assumption, hok⟩
  · cases hok

theorem pvRequire_pos {α : Type} {cond : Prop} [Decidable cond] (msg : String)
    (next : Except String α) (h : cond) : pvRequire cond msg next = next :=
  if_pos h

theorem pvRequire_neg {α : Type} {cond : Prop} [Decidable cond] (msg : String)
    (next : Except String α) (h : ¬ cond) : pvRequire cond msg next = Except.error msg :=
  if_neg h

/-- The `ecrecover` performed inside `issueCredential`
(src/contracts/ProofVerifier.sol lines 135–158): hash
`abi.encodePacked(id, subject, summaryHash)` (32 + 20 + 32 bytes), apply the
EIP-191 prefix, split the signature into `r`, `s`, `v` with the +27
normalization, and recover. -/
def issueSigner (env : Env) (id subject summaryHash : Nat) (signature : List Nat) : Nat :=
  env.ecrec
    (ethSignedHash env.keccak
      (env.keccak (natToBeBytes 32 id ++ natToBeBytes 20 subject ++ natToBeBytes 32 summaryHash)))
    (normalizeV (signature.getD 64 0))
    (beBytesToNat (signature.take 32))
    (beBytesToNat ((signature.drop 32).take 32))

/-- `AuditorRegistry.incrementCredentialCount`
(src/contracts/AuditorRegistry.sol lines 129–137), invoked by both anchoring
paths when a registry is configured.  Inside that call `msg.sender` is this
ProofVerifier contract (`env.selfAddr`), and the registry requires it to
equal its stored `proofVerifier` (`env.regProofVerifier`), the target auditor
to be non-zero, and the target to be approved; any of these failing reverts
the whole outer transaction.  The counter increment itself touches only the
registry collaborator's storage. -/
def incrementCredentialCountCall (env : Env) (target : Nat) : Except String Unit :=
  pvRequire (env.selfAddr = env.regProofVerifier) ("Only ProofVerifier can increment") <|
  pvRequire (target ≠ 0) ("Invalid auditor address") <|
  pvRequire (env.isApprovedAud target = true) ("Auditor not approved") <|
  Except.ok ()

/-- `ProofVerifier.issueCredential` (src/contracts/ProofVerifier.sol lines
124–177).  Modifier order: `onlyApprovedAuditor` (which passes outright when
no registry is configured), then `onlyValidAddress(subject)`; then the body's
requires in source order; finally, when a registry is configured, the
external `incrementCredentialCount` call, whose revert aborts the whole
transaction. -/
def execIssueCredential (env : Env) (id subject summaryHash : Nat) (signature : List Nat)
    (s : PVState) : Except String PVState :=
  pvRequire (s.auditorRegistry = 0 ∨ env.isApprovedAud env.caller = true)
    ("Not an approved auditor") <|
  pvRequire (subject ≠ 0) ("Invalid address") <|
  pvRequire (s.credentialAnchored id = false) ("Credential already issued") <|
  pvRequire (id ≠ 0) ("Invalid credential ID") <|
  pvRequire (summaryHash ≠ 0) ("Invalid summary hash") <|
  pvRequire (signature.length = 65) ("Invalid signature length") <|
  pvRequire (issueSigner env id subject summaryHash signature = env.caller
      ∧ issueSigner env id subject summaryHash signature ≠ 0) ("Invalid signature") <|
  match (if s.auditorRegistry = 0 then Except.ok ()
      else incrementCredentialCountCall env env.caller) with
  | Except.error e => Except.error e
  | Except.ok _ =>
      Except.ok { s with
        credentials := updMap s.credentials id
          ⟨id, env.caller, summaryHash, env.timestamp, signature⟩,
        credentialAnchored := updMap s.credentialAnchored id true }

/-- `ProofVerifier.anchorCredential` (src/contracts/ProofVerifier.sol lines
185–211).  Modifier order: `onlyValidAddress(issuer)`, then
`onlyApprovedAuditor`; the stored record's signature is the empty bytes and no
`ecrecover` occurs on this path; when a registry is configured, the external
`incrementCredentialCount` call can still revert the transaction. -/
def execAnchorCredential (env : Env) (id summaryHash issuer : Nat)
    (s : PVState) : Except String PVState :=
  pvRequire (issuer ≠ 0) ("Invalid address") <|
  pvRequire (s.auditorRegistry = 0 ∨ env.isApprovedAud env.caller = true)
    ("Not an approved auditor") <|
  pvRequire (issuer = env.caller) ("Can only anchor for yourself") <|
  pvRequire (s.credentialAnchored id = false) ("Credential already anchored") <|
  pvRequire (id ≠ 0) ("Invalid credential ID") <|
  pvRequire (summaryHash ≠ 0) ("Invalid summary hash") <|
  match (if s.auditorRegistry = 0 then Except.ok ()
      else incrementCredentialCountCall env issuer) with
  | Except.error e => Except.error e
  | Except.ok _ =>
      Except.ok { s with
        credentials := updMap s.credentials id ⟨id, issuer, summaryHash, env.timestamp, []⟩,
        credentialAnchored := updMap s.credentialAnchored id true }

/-- `ProofVerifier.recordVerification` (src/contracts/ProofVerifier.sol lines
219–269): the two address modifiers, then the body's requires in source
order; the pluggable `IZKVerifier.verifyProof` backend's answer is the oracle
`env.zkVerify` applied to the payload fields `(proofId, issuer := auditor,
subject := project, proof, signature)` and the public inputs.  On success the
proof is marked validated, a ProofRecord is stored, and the project is marked
verified with its auditor.  `status` is the UTF-8 byte string whose length
`require(bytes(status).length > 0)` checks. -/
def execRecordVerification (env : Env) (project auditor : Nat) (status : List Nat)
    (credentialId proofId : Nat) (proof publicInputs proofSignature : List Nat)
    (s : PVState) : Except String PVState :=
  pvRequire (project ≠ 0) ("Invalid address") <|
  pvRequire (auditor ≠ 0) ("Invalid address") <|
  pvRequire (0 < status.length) ("Status cannot be empty") <|
  pvRequire (s.zkVerifier ≠ 0) ("Verifier not configured") <|
  pvRequire (s.proofValidated proofId = false) ("Proof already used") <|
  pvRequire (3 ≤ publicInputs.length) ("Invalid proof inputs") <|
  pvRequire (credentialId ≠ 0) ("Invalid credential id") <|
  pvRequire (s.credentialAnchored credentialId = true) ("Credential not anchored") <|
  pvRequire ((s.credentials credentialId).issuer = auditor) ("Auditor mismatch") <|
  pvRequire (publicInputs.getD 0 0 = project) ("Project mismatch") <|
  pvRequire (publicInputs.getD 1 0 = auditor) ("Auditor input mismatch") <|
  pvRequire (publicInputs.getD 2 0 = (s.credentials credentialId).summaryHash)
    ("Summary hash mismatch") <|
  pvRequire (env.zkVerify proofId auditor project proof proofSignature publicInputs = true)
    ("Proof verification failed") <|
  Except.ok { s with
    proofValidated := updMap s.proofValidated proofId true,
    proofRecords := updMap s.proofRecords proofId
      ⟨project, auditor, (s.credentials credentialId).summaryHash, env.timestamp⟩,
    verified := updMap s.verified project true,
    projectAuditor := updMap s.projectAuditor project auditor }

/-- `ProofVerifier.setZKVerifier` (src/contracts/ProofVerifier.sol lines
111–114). -/
def execSetZKVerifier (env : Env) (addr : Nat) (s : PVState) : Except String PVState :=
  pvRequire (env.caller = s.admin) ("Only admin can perform this action") <|
  pvRequire (addr ≠ 0) ("Invalid verifier address") <|
  Except.ok { s with zkVerifier := addr }

/-- `ProofVerifier.setAuditorRegistry` (src/contracts/ProofVerifier.sol lines
311–314). -/
def execSetAuditorRegistry (env : Env) (addr : Nat) (s : PVState) : Except String PVState :=
  pvRequire (env.caller = s.admin) ("Only admin can perform this action") <|
  pvRequire (addr ≠ 0) ("Invalid registry address") <|
  Except.ok { s with auditorRegistry := addr }

/-- `ProofVerifier.transferAdmin` (src/contracts/ProofVerifier.sol lines
320–323). -/
def execTransferAdmin (env : Env) (addr : Nat) (s : PVState) : Except String PVState :=
  pvRequire (env.caller = s.admin) ("Only admin can perform this action") <|
  pvRequire (addr ≠ 0) ("Invalid admin address") <|
  Except.ok { s with admin := addr }

/-- The state-changing external entry points of `ProofVerifier`. -/
inductive PVOp where
  | issueCredential (id subject summaryHash : Nat) (signature : List Nat)
  | anchorCredential (id summaryHash issuer : Nat)
  | recordVerification (project auditor : Nat) (status : List Nat)
      (credentialId proofId : Nat) (proof publicInputs proofSignature : List Nat)
  | setZKVerifier (addr : Nat)
  | setAuditorRegistry (addr : Nat)
  | transferAdmin (addr : Nat)

/-- Execute one transaction against the contract; `Except.error` is a revert
carrying the require reason string. -/
def pvExec (env : Env) (op : PVOp) (s : PVState) : Except String PVState :=
  match op with
  | .issueCredential id subject summaryHash signature =>
      execIssueCredential env id subject summaryHash signature s
  | .anchorCredential id summaryHash issuer =>
      execAnchorCredential env id summaryHash issuer s
  | .recordVerification project auditor status credentialId proofId proof publicInputs
      proofSignature =>
      execRecordVerification env project auditor status credentialId proofId proof
        publicInputs proofSignature s
  | .setZKVerifier addr => execSetZKVerifier env addr s
  | .setAuditorRegistry addr => execSetAuditorRegistry env addr s
  | .transferAdmin addr => execTransferAdmin env addr s

/-- Ledger semantics of one submitted transaction: a revert rolls the state
back unchanged. -/
def pvStep (env : Env) (op : PVOp) (s : PVState) : PVState :=
  match pvExec env op s with
  | Except.error _ => s
  | Except.ok t => t

/-- A serialized sequence of transactions. -/
def pvRun : List (Env × PVOp) → PVState → PVState
  | [], s => s
  | e :: rest, s => pvRun rest (pvStep e.1 e.2 s)

/-- States reachable from some deployment by a sequence of transactions. -/
inductive PVReachable : PVState → Prop
  | init (deployer regAddr zkAddr : Nat) : PVReachable (initState deployer regAddr zkAddr)
  | step (env : Env) (op : PVOp) (s : PVState) : PVReachable s → PVReachable (pvStep env op s)

theorem updMap_bool_mono (f : Nat → Bool) (key k : Nat) (h : f k = true) :
    updMap f key true k = true := by
  unfold updMap
  split
  · rfl
  · exact h

/-- A successful `issueCredential` implies the id was unanchored and yields
exactly the documented storage update. -/
theorem execIssueCredential_ok (env : Env) (id subject summaryHash : Nat)
    (signature : List Nat) (s t : PVState)
    (hok : execIssueCredential env id subject summaryHash signature s = Except.ok t) :
    s.credentialAnchored id = false
    ∧ t = { s with
        credentials := updMap s.credentials id
          ⟨id, env.caller, summaryHash, env.timestamp, signature⟩,
        credentialAnchored := updMap s.credentialAnchored id true } := by
  unfold execIssueCredential at hok
  obtain ⟨-, hok⟩ := pvRequire_ok hok
  obtain ⟨-, hok⟩ := pvRequire_ok hok
  obtain ⟨hanch, hok⟩ := pvRequire_ok hok
  obtain ⟨-, hok⟩ := pvRequire_ok hok
  obtain ⟨-, hok⟩ := pvRequire_ok hok
  obtain ⟨-, hok⟩ := pvRequire_ok hok
  obtain ⟨-, hok⟩ := pvRequire_ok hok
  rcases hinc : (if s.auditorRegistry = 0 then Except.ok ()
      else incrementCredentialCountCall env env.caller) with e | u
  · rw [hinc] at hok
    cases hok
  · rw [hinc] at hok
    injection hok with h
    exact ⟨hanch, h.symm⟩

/-- A successful `anchorCredential` implies the id was unanchored and yields
exactly the documented storage update, whose stored signature is empty. -/
theorem execAnchorCredential_ok (env : Env) (id summaryHash issuer : Nat) (s t : PVState)
    (hok : execAnchorCredential env id summaryHash issuer s = Except.ok t) :
    s.credentialAnchored id = false
    ∧ t = { s with
        credentials := updMap s.credentials id ⟨id, issuer, summaryHash, env.timestamp, []⟩,
        credentialAnchored := updMap s.credentialAnchored id true } := by
  unfold execAnchorCredential at hok
  obtain ⟨-, hok⟩ := pvRequire_ok hok
  obtain ⟨-, hok⟩ := pvRequire_ok hok
  obtain ⟨-, hok⟩ := pvRequire_ok hok
  obtain ⟨hanch, hok⟩ := pvRequire_ok hok
  obtain ⟨-, hok⟩ := pvRequire_ok hok
  obtain ⟨-, hok⟩ := pvRequire_ok hok
  rcases hinc : (if s.auditorRegistry = 0 then Except.ok ()
      else incrementCredentialCountCall env issuer) with e | u
  · rw [hinc] at hok
    cases hok
  · rw [hinc] at hok
    injection hok with h
    exact ⟨hanch, h.symm⟩

/-- A successful `recordVerification` implies every checked precondition held
and yields exactly the documented storage update. -/
theorem execRecordVerification_ok (env : Env) (project auditor : Nat) (status : List Nat)
    (credentialId proofId : Nat) (proof publicInputs proofSignature : List Nat)
    (s t : PVState)
    (hok : execRecordVerification env project auditor status credentialId proofId proof
      publicInputs proofSignature s = Except.ok t) :
    project ≠ 0 ∧ auditor ≠ 0
    ∧ s.proofValidated proofId = false
    ∧ s.credentialAnchored credentialId = true
    ∧ (s.credentials credentialId).issuer = auditor
    ∧ publicInputs.getD 0 0 = project
    ∧ publicInputs.getD 1 0 = auditor
    ∧ publicInputs.getD 2 0 = (s.credentials credentialId).summaryHash
    ∧ t = { s with
        proofValidated := updMap s.proofValidated proofId true,
        proofRecords := updMap s.proofRecords proofId
          ⟨project, auditor, (s.credentials credentialId).summaryHash, env.timestamp⟩,
        verified := updMap s.verified project true,
        projectAuditor := updMap s.projectAuditor project auditor } := by
  unfold execRecordVerification at hok
  obtain ⟨h1, hok⟩ := pvRequire_ok hok
  obtain ⟨h2, hok⟩ := pvRequire_ok hok
  obtain ⟨-, hok⟩ := pvRequire_ok hok
  obtain ⟨-, hok⟩ := pvRequire_ok hok
  obtain ⟨h3, hok⟩ := pvRequire_ok hok
  obtain ⟨-, hok⟩ := pvRequire_ok hok
  obtain ⟨-, hok⟩ := pvRequire_ok hok
  obtain ⟨h4, hok⟩ := pvRequire_ok hok
  obtain ⟨h5, hok⟩ := pvRequire_ok hok
  obtain ⟨h6, hok⟩ := pvRequire_ok hok
  obtain ⟨h7, hok⟩ := pvRequire_ok hok
  obtain ⟨h8, hok⟩ := pvRequire_ok hok
  obtain ⟨-, hok⟩ := pvRequire_ok hok
  injection hok with h
  exact ⟨h1, h2, h3, h4, h5, h6, h7, h8, h.symm⟩

theorem execSetZKVerifier_ok (env : Env) (addr : Nat) (s t : PVState)
    (hok : execSetZKVerifier env addr s = Except.ok t) :
    t = { s with zkVerifier := addr } := by
  unfold execSetZKVerifier at hok
  obtain ⟨-, hok⟩ := pvRequire_ok hok
  obtain ⟨-, hok⟩ := pvRequire_ok hok
  injection hok with h
  exact h.symm

theorem execSetAuditorRegistry_ok (env : Env) (addr : Nat) (s t : PVState)
    (hok : execSetAuditorRegistry env addr s = Except.ok t) :
    t = { s with auditorRegistry := addr } := by
  unfold execSetAuditorRegistry at hok
  obtain ⟨-, hok⟩ := pvRequire_ok hok
  obtain ⟨-, hok⟩ := pvRequire_ok hok
  injection hok with h
  exact h.symm

theorem execTransferAdmin_ok (env : Env) (addr : Nat) (s t : PVState)
    (hok : execTransferAdmin env addr s = Except.ok t) :
    t = { s with admin := addr } := by
  unfold execTransferAdmin at hok
  obtain ⟨-, hok⟩ := pvRequire_ok hok
  obtain ⟨-, hok⟩ := pvRequire_ok hok
  injection hok with h
  exact h.symm

/-- No transaction ever clears a validated proofId. -/
theorem pvStep_proofValidated_mono (env : Env) (op : PVOp) (s : PVState) (pid : Nat)
    (hp : s.proofValidated pid = true) :
    (pvStep env op s).proofValidated pid = true := by
  unfold pvStep
  rcases hok : pvExec env op s with e | t
  · exact hp
  · cases op with
    | issueCredential id subject summaryHash signature =>
        obtain ⟨-, ht⟩ := execIssueCredential_ok env id subject summaryHash signature s t hok
        rw [ht]
        exact hp
    | anchorCredential id summaryHash issuer =>
        obtain ⟨-, ht⟩ := execAnchorCredential_ok env id summaryHash issuer s t hok
        rw [ht]
        exact hp
    | recordVerification project auditor status credentialId proofId proof publicInputs
        proofSignature =>
        obtain ⟨-, -, -, -, -, -, -, -, ht⟩ := execRecordVerification_ok env project auditor
          status credentialId proofId proof publicInputs proofSignature s t hok
        rw [ht]
        exact updMap_bool_mono s.proofValidated proofId pid hp
    | setZKVerifier addr =>
        rw [execSetZKVerifier_ok env addr s t hok]
        exact hp
    | setAuditorRegistry addr =>
        rw [execSetAuditorRegistry_ok env addr s t hok]
        exact hp
    | transferAdmin addr =>
        rw [execTransferAdmin_ok env addr s t hok]
        exact hp

theorem pvRun_proofValidated_mono (trace : List (Env × PVOp)) (s : PVState) (pid : Nat)
    (hp : s.proofValidated pid = true) :
    (pvRun trace s).proofValidated pid = true := by
  induction trace generalizing s with
  | nil => exact hp
  | cons head tail ih =>
      exact ih _ (pvStep_proofValidated_mono head.1 head.2 s pid hp)

/-- No transaction ever unanchors a credential or mutates its stored record. -/
theorem pvStep_anchored_preserved (env : Env) (op : PVOp) (s : PVState) (id : Nat)
    (ha : s.credentialAnchored id = true) :
    (pvStep env op s).credentialAnchored id = true
    ∧ (pvStep env op s).credentials id = s.credentials id := by
  unfold pvStep
  rcases hok : pvExec env op s with e | t
  · exact ⟨ha, rfl⟩
  · cases op with
    | issueCredential id' subject summaryHash signature =>
        obtain ⟨hfalse, ht⟩ := execIssueCredential_ok env id' subject summaryHash signature
          s t hok
        have hne : id ≠ id' := by
          intro hiq
          rw [hiq, hfalse] at ha
          cases ha
        rw [ht]
        constructor
        · show updMap s.credentialAnchored id' true id = true
          unfold updMap
          rw [if_neg hne]
          exact ha
        · show updMap s.credentials id' _ id = s.credentials id
          unfold updMap
          rw [if_neg hne]
    | anchorCredential id' summaryHash issuer =>
        obtain ⟨hfalse, ht⟩ := execAnchorCredential_ok env id' summaryHash issuer s t hok
        have hne : id ≠ id' := by
          intro hiq
          rw [hiq, hfalse] at ha
          cases ha
        rw [ht]
        constructor
        · show updMap s.credentialAnchored id' true id = true
          unfold updMap
          rw [if_neg hne]
          exact ha
        · show updMap s.credentials id' _ id = s.credentials id
          unfold updMap
          rw [if_neg hne]
    | recordVerification project auditor status credentialId proofId proof publicInputs
        proofSignature =>
        obtain ⟨-, -, -, -, -, -, -, -, ht⟩ := execRecordVerification_ok env project auditor
          status credentialId proofId proof publicInputs proofSignature s t hok
        rw [ht]
        exact ⟨ha, rfl⟩
    | setZKVerifier addr =>
        rw [execSetZKVerifier_ok env addr s t hok]
        exact ⟨ha, rfl⟩
    | setAuditorRegistry addr =>
        rw [execSetAuditorRegistry_ok env addr s t hok]
        exact ⟨ha, rfl⟩
    | transferAdmin addr =>
        rw [execTransferAdmin_ok env addr s t hok]
        exact ⟨ha, rfl⟩

theorem pvRun_anchored_preserved (trace : List (Env × PVOp)) (s : PVState) (id : Nat)
    (ha : s.credentialAnchored id = true) :
    (pvRun trace s).credentialAnchored id = true
    ∧ (pvRun trace s).credentials id = s.credentials id := by
  induction trace generalizing s with
  | nil => exact ⟨ha, rfl⟩
  | cons head tail ih =>
      obtain ⟨h1, h2⟩ := pvStep_anchored_preserved head.1 head.2 s id ha
      obtain ⟨h3, h4⟩ := ih _ h1
      exact ⟨h3, h4.trans h2⟩

/-- One transaction preserves the verified/projectAuditor coupling. -/
theorem pvStep_verified_inv (env : Env) (op : PVOp) (s : PVState)
    (hinv : ∀ p, s.verified p = true ↔ s.projectAuditor p ≠ 0) (p : Nat) :
    (pvStep env op s).verified p = true ↔ (pvStep env op s).projectAuditor p ≠ 0 := by
  unfold pvStep
  rcases hok : pvExec env op s with e | t
  · exact hinv p
  · cases op with
    | issueCredential id subject summaryHash signature =>
        obtain ⟨-, ht⟩ := execIssueCredential_ok env id subject summaryHash signature s t hok
        rw [ht]
        exact hinv p
    | anchorCredential id summaryHash issuer =>
        obtain ⟨-, ht⟩ := execAnchorCredential_ok env id summaryHash issuer s t hok
        rw [ht]
        exact hinv p
    | recordVerification project auditor status credentialId proofId proof publicInputs
        proofSignature =>
        obtain ⟨-, haud, -, -, -, -, -, -, ht⟩ := execRecordVerification_ok env project
          auditor status credentialId proofId proof publicInputs proofSignature s t hok
        rw [ht]
        show updMap s.verified project true p = true
          ↔ updMap s.projectAuditor project auditor p ≠ 0
        unfold updMap
        by_cases hp : p = project
        · rw [if_pos hp, if_pos hp]
          constructor
          · intro _
            exact haud
          · intro _
            rfl
        · rw [if_neg hp, if_neg hp]
          exact hinv p
    | setZKVerifier addr =>
        rw [execSetZKVerifier_ok env addr s t hok]
        exact hinv p
    | setAuditorRegistry addr =>
        rw [execSetAuditorRegistry_ok env addr s t hok]
        exact hinv p
    | transferAdmin addr =>
        rw [execTransferAdmin_ok env addr s t hok]
        exact hinv p

/-- Claim C10: in every state of `ProofVerifier` reachable from a deployment
by any sequence of transactions, `verified[p]` is true exactly when
`projectAuditor[p]` is a non-zero address; the two are set only together by a
successful `recordVerification` (whose `auditor` argument must be non-zero)
and are never unset. -/
theorem verified_iff_projectAuditor_nonzero (s : PVState) (hreach : PVReachable s) :
    ∀ p, s.verified p = true ↔ s.projectAuditor p ≠ 0 := by
  induction hreach with
  | init deployer regAddr zkAddr =>
      intro p
      constructor
      · intro hc
        cases hc
      · intro hc
        exact absurd rfl hc
  | step env op s' hr ih => exact pvStep_verified_inv env op s' ih

/-- Witness for C10 at a concrete reachable state. -/
theorem verified_iff_projectAuditor_nonzero_witness :
    (initState 1 2 3).verified 0 = true ↔ (initState 1 2 3).projectAuditor 0 ≠ 0 :=
  verified_iff_projectAuditor_nonzero (initState 1 2 3) (PVReachable.init 1 2 3) 0

/-- Claim C3: a successful `recordVerification` marks its proofId validated;
a validated proofId stays validated under every later transaction sequence;
and a later `recordVerification` with the same proofId and otherwise valid
arguments reverts with the "Proof already used" error and leaves the state
unchanged. -/
theorem proofId_single_use :
    (∀ (env : Env) (project auditor : Nat) (status : List Nat)
        (credentialId proofId : Nat) (proof publicInputs proofSignature : List Nat)
        (s t : PVState),
      execRecordVerification env project auditor status credentialId proofId proof
          publicInputs proofSignature s = Except.ok t →
      t.proofValidated proofId = true)
    ∧ (∀ (trace : List (Env × PVOp)) (s : PVState) (proofId : Nat),
      s.proofValidated proofId = true → (pvRun trace s).proofValidated proofId = true)
    ∧ (∀ (env : Env) (project auditor : Nat) (status : List Nat)
        (credentialId proofId : Nat) (proof publicInputs proofSignature : List Nat)
        (s : PVState),
      project ≠ 0 → auditor ≠ 0 → 0 < status.length → s.zkVerifier ≠ 0 →
      s.proofValidated proofId = true →
      execRecordVerification env project auditor status credentialId proofId proof
          publicInputs proofSignature s = Except.error ("Proof already used")
      ∧ pvStep env (PVOp.recordVerification project auditor status credentialId proofId
          proof publicInputs proofSignature) s = s) := by
  refine ⟨?_, ?_, ?_⟩
  · intro env project auditor status credentialId proofId proof publicInputs
      proofSignature s t hok
    obtain ⟨-, -, -, -, -, -, -, -, ht⟩ := execRecordVerification_ok env project auditor
      status credentialId proofId proof publicInputs proofSignature s t hok
    rw [ht]
    show updMap s.proofValidated proofId true proofId = true
    unfold updMap
    rw [if_pos rfl]
  · exact pvRun_proofValidated_mono
  · intro env project auditor status credentialId proofId proof publicInputs
      proofSignature s hproj haud hstat hzk hused
    have herr : execRecordVerification env project auditor status credentialId proofId
        proof publicInputs proofSignature s = Except.error ("Proof already used") := by
      unfold execRecordVerification
      rw [pvRequire_pos _ _ hproj, pvRequire_pos _ _ haud, pvRequire_pos _ _ hstat,
        pvRequire_pos _ _ hzk]
      exact pvRequire_neg _ _ (by simp [hused])
    refine ⟨herr, ?_⟩
    unfold pvStep
    rw [show pvExec env (PVOp.recordVerification project auditor status credentialId
        proofId proof publicInputs proofSignature) s
      = execRecordVerification env project auditor status credentialId proofId proof
          publicInputs proofSignature s from rfl, herr]

/-- Witness for C3: the hypotheses of the replay-rejection conjunct are
satisfied at a concrete state whose proofId 4 is already validated, and the
call reverts with "Proof already used" leaving the state unchanged. -/
theorem proofId_single_use_witness :
    execRecordVerification
        ⟨1, 0, 0, fun _ => [], fun _ _ _ _ => 0, fun _ => true, fun _ _ _ _ _ _ => true,
          fun _ _ => false, 0⟩
        7 5 [1] 2 4 [] [7, 5, 9] []
        ⟨1, 0, 3, fun _ => false, fun _ => true, fun _ => true, fun _ => 0,
          fun _ => ⟨0, 0, 0, 0, []⟩, fun _ => ⟨0, 0, 0, 0⟩⟩
      = Except.error ("Proof already used")
    ∧ pvStep
        ⟨1, 0, 0, fun _ => [], fun _ _ _ _ => 0, fun _ => true, fun _ _ _ _ _ _ => true,
          fun _ _ => false, 0⟩
        (PVOp.recordVerification 7 5 [1] 2 4 [] [7, 5, 9] [])
        ⟨1, 0, 3, fun _ => false, fun _ => true, fun _ => true, fun _ => 0,
          fun _ => ⟨0, 0, 0, 0, []⟩, fun _ => ⟨0, 0, 0, 0⟩⟩
      = ⟨1, 0, 3, fun _ => false, fun _ => true, fun _ => true, fun _ => 0,
          fun _ => ⟨0, 0, 0, 0, []⟩, fun _ => ⟨0, 0, 0, 0⟩⟩ :=
  proofId_single_use.2.2
    ⟨1, 0, 0, fun _ => [], fun _ _ _ _ => 0, fun _ => true, fun _ _ _ _ _ _ => true,
      fun _ _ => false, 0⟩
    7 5 [1] 2 4 [] [7, 5, 9] []
    ⟨1, 0, 3, fun _ => false, fun _ => true, fun _ => true, fun _ => 0,
      fun _ => ⟨0, 0, 0, 0, []⟩, fun _ => ⟨0, 0, 0, 0⟩⟩
    (by decide) (by decide) (by decide) (by decide) rfl

/-- Claim C4: whenever the named credential is anchored but one of the first
three public inputs disagrees with the call's project, its auditor, or the
anchored summary hash, `recordVerification` reverts — whatever the signature
backend would answer — with no state change; and when every earlier check
passes, the revert reason is the specific mismatch string for the first
disagreeing input. -/
theorem public_inputs_binding_rejection :
    (∀ (env : Env) (project auditor : Nat) (status : List Nat)
        (credentialId proofId : Nat) (proof publicInputs proofSignature : List Nat)
        (s : PVState),
      s.credentialAnchored credentialId = true →
      (publicInputs.getD 0 0 ≠ project ∨ publicInputs.getD 1 0 ≠ auditor
        ∨ publicInputs.getD 2 0 ≠ (s.credentials credentialId).summaryHash) →
      (∃ e, execRecordVerification env project auditor status credentialId proofId proof
          publicInputs proofSignature s = Except.error e)
      ∧ pvStep env (PVOp.recordVerification project auditor status credentialId proofId
          proof publicInputs proofSignature) s = s)
    ∧ (∀ (env : Env) (project auditor : Nat) (status : List Nat)
        (credentialId proofId : Nat) (proof publicInputs proofSignature : List Nat)
        (s : PVState),
      project ≠ 0 → auditor ≠ 0 → 0 < status.length → s.zkVerifier ≠ 0 →
      s.proofValidated proofId = false → 3 ≤ publicInputs.length → credentialId ≠ 0 →
      s.credentialAnchored credentialId = true →
      (s.credentials credentialId).issuer = auditor →
      (publicInputs.getD 0 0 ≠ project →
        execRecordVerification env project auditor status credentialId proofId proof
          publicInputs proofSignature s = Except.error ("Project mismatch"))
      ∧ (publicInputs.getD 0 0 = project → publicInputs.getD 1 0 ≠ auditor →
        execRecordVerification env project auditor status credentialId proofId proof
          publicInputs proofSignature s = Except.error ("Auditor input mismatch"))
      ∧ (publicInputs.getD 0 0 = project → publicInputs.getD 1 0 = auditor →
        publicInputs.getD 2 0 ≠ (s.credentials credentialId).summaryHash →
        execRecordVerification env project auditor status credentialId proofId proof
          publicInputs proofSignature s = Except.error ("Summary hash mismatch"))) := by
  constructor
  · intro env project auditor status credentialId proofId proof publicInputs
      proofSignature s hanch hmis
    rcases hres : execRecordVerification env project auditor status credentialId proofId
      proof publicInputs proofSignature s with e | t
    · refine ⟨⟨e, rfl⟩, ?_⟩
      unfold pvStep
      rw [show pvExec env (PVOp.recordVerification project auditor status credentialId
          proofId proof publicInputs proofSignature) s
        = execRecordVerification env project auditor status credentialId proofId proof
            publicInputs proofSignature s from rfl, hres]
    · exfalso
      obtain ⟨-, -, -, -, -, h6, h7, h8, -⟩ := execRecordVerification_ok env project
        auditor status credentialId proofId proof publicInputs proofSignature s t hres
      rcases hmis with h | h | h
      · exact h h6
      · exact h h7
      · exact h h8
  · intro env project auditor status credentialId proofId proof publicInputs
      proofSignature s hproj haud hstat hzk hpv hlen hcid hanch hiss
    refine ⟨?_, ?_, ?_⟩
    · intro h0
      unfold execRecordVerification
      rw [pvRequire_pos _ _ hproj, pvRequire_pos _ _ haud, pvRequire_pos _ _ hstat,
        pvRequire_pos _ _ hzk, pvRequire_pos _ _ hpv, pvRequire_pos _ _ hlen,
        pvRequire_pos _ _ hcid, pvRequire_pos _ _ hanch, pvRequire_pos _ _ hiss]
      exact pvRequire_neg _ _ h0
    · intro h0 h1
      unfold execRecordVerification
      rw [pvRequire_pos _ _ hproj, pvRequire_pos _ _ haud, pvRequire_pos _ _ hstat,
        pvRequire_pos _ _ hzk, pvRequire_pos _ _ hpv, pvRequire_pos _ _ hlen,
        pvRequire_pos _ _ hcid, pvRequire_pos _ _ hanch, pvRequire_pos _ _ hiss,
        pvRequire_pos _ _ h0]
      exact pvRequire_neg _ _ h1
    · intro h0 h1 h2
      unfold execRecordVerification
      rw [pvRequire_pos _ _ hproj, pvRequire_pos _ _ haud, pvRequire_pos _ _ hstat,
        pvRequire_pos _ _ hzk, pvRequire_pos _ _ hpv, pvRequire_pos _ _ hlen,
        pvRequire_pos _ _ hcid, pvRequire_pos _ _ hanch, pvRequire_pos _ _ hiss,
        pvRequire_pos _ _ h0, pvRequire_pos _ _ h1]
      exact pvRequire_neg _ _ h2

/-- Witness for C4: at a concrete anchored state, a tampered
`publicInputs[0]` makes the call revert with the "Project mismatch" reason,
even though the signature oracle answers true. -/
theorem public_inputs_binding_rejection_witness :
    execRecordVerification
        ⟨1, 0, 0, fun _ => [], fun _ _ _ _ => 0, fun _ => true, fun _ _ _ _ _ _ => true,
          fun _ _ => false, 0⟩
        7 5 [1] 2 4 [] [8, 5, 9] []
        ⟨1, 0, 3, fun _ => false, fun _ => true, fun _ => false, fun _ => 0,
          fun _ => ⟨2, 5, 9, 0, []⟩, fun _ => ⟨0, 0, 0, 0⟩⟩
      = Except.error ("Project mismatch") :=
  ((public_inputs_binding_rejection.2
    ⟨1, 0, 0, fun _ => [], fun _ _ _ _ => 0, fun _ => true, fun _ _ _ _ _ _ => true,
      fun _ _ => false, 0⟩
    7 5 [1] 2 4 [] [8, 5, 9] []
    ⟨1, 0, 3, fun _ => false, fun _ => true, fun _ => false, fun _ => 0,
      fun _ => ⟨2, 5, 9, 0, []⟩, fun _ => ⟨0, 0, 0, 0⟩⟩
    (by decide) (by decide) (by decide) (by decide) rfl (by decide) (by decide)
    rfl rfl).1) (by decide)

/-- Claim C6: a first successful `issueCredential` or `anchorCredential`
anchors its id; an anchored id stays anchored and its stored CredentialData
record is never mutated or deleted by any later transaction sequence; and any
second `issueCredential` or `anchorCredential` with the same id reverts. -/
theorem credential_anchor_immutable :
    (∀ (env : Env) (id subject summaryHash : Nat) (signature : List Nat) (s t : PVState),
      execIssueCredential env id subject summaryHash signature s = Except.ok t →
      t.credentialAnchored id = true)
    ∧ (∀ (env : Env) (id summaryHash issuer : Nat) (s t : PVState),
      execAnchorCredential env id summaryHash issuer s = Except.ok t →
      t.credentialAnchored id = true)
    ∧ (∀ (trace : List (Env × PVOp)) (s : PVState) (id : Nat),
      s.credentialAnchored id = true →
      (pvRun trace s).credentialAnchored id = true
      ∧ (pvRun trace s).credentials id = s.credentials id)
    ∧ (∀ (env : Env) (id subject summaryHash : Nat) (signature : List Nat) (s : PVState),
      s.credentialAnchored id = true →
      ∃ e, execIssueCredential env id subject summaryHash signature s = Except.error e)
    ∧ (∀ (env : Env) (id summaryHash issuer : Nat) (s : PVState),
      s.credentialAnchored id = true →
      ∃ e, execAnchorCredential env id summaryHash issuer s = Except.error e) := by
  refine ⟨?_, ?_, ?_, ?_, ?_⟩
  · intro env id subject summaryHash signature s t hok
    obtain ⟨-, ht⟩ := execIssueCredential_ok env id subject summaryHash signature s t hok
    rw [ht]
    show updMap s.credentialAnchored id true id = true
    unfold updMap
    rw [if_pos rfl]
  · intro env id summaryHash issuer s t hok
    obtain ⟨-, ht⟩ := execAnchorCredential_ok env id summaryHash issuer s t hok
    rw [ht]
    show updMap s.credentialAnchored id true id = true
    unfold updMap
    rw [if_pos rfl]
  · exact pvRun_anchored_preserved
  · intro env id subject summaryHash signature s hanch
    rcases hres : execIssueCredential env id subject summaryHash signature s with e | t
    · exact ⟨e, rfl⟩
    · exfalso
      obtain ⟨hfalse, -⟩ := execIssueCredential_ok env id subject summaryHash signature
        s t hres
      rw [hanch] at hfalse
      cases hfalse
  · intro env id summaryHash issuer s hanch
    rcases hres : execAnchorCredential env id summaryHash issuer s with e | t
    · exact ⟨e, rfl⟩
    · exfalso
      obtain ⟨hfalse, -⟩ := execAnchorCredential_ok env id summaryHash issuer s t hres
      rw [hanch] at hfalse
      cases hfalse

/-- Witness for C6: anchored ids survive an (empty) transaction sequence with
their record intact, at a concrete state. -/
theorem credential_anchor_immutable_witness :
    (pvRun [] ⟨1, 0, 3, fun _ => false, fun _ => true, fun _ => false, fun _ => 0,
        fun _ => ⟨2, 5, 9, 0, []⟩, fun _ => ⟨0, 0, 0, 0⟩⟩).credentialAnchored 1 = true
    ∧ (pvRun [] ⟨1, 0, 3, fun _ => false, fun _ => true, fun _ => false, fun _ => 0,
        fun _ => ⟨2, 5, 9, 0, []⟩, fun _ => ⟨0, 0, 0, 0⟩⟩).credentials 1
      = (⟨1, 0, 3, fun _ => false, fun _ => true, fun _ => false, fun _ => 0,
        fun _ => ⟨2, 5, 9, 0, []⟩, fun _ => ⟨0, 0, 0, 0⟩⟩ : PVState).credentials 1 :=
  credential_anchor_immutable.2.2.1 []
    ⟨1, 0, 3, fun _ => false, fun _ => true, fun _ => false, fun _ => 0,
      fun _ => ⟨2, 5, 9, 0, []⟩, fun _ => ⟨0, 0, 0, 0⟩⟩ 1 rfl

/-- Counterexample to claim C5 as stated: the deployment with a zero registry
address is reachable, and there the `onlyApprovedAuditor` modifier passes for
every caller, so a caller for whom `isApprovedAuditor` answers false still
issues and anchors a credential.  The caller (address 5) presents a
well-formed signature over the issuance message: `r` is the x-coordinate of
the secp256k1 generator (so it is in `[1, n-1]` and is the x-coordinate of a
curve point), `s = 2`, `v = 27`.  The `ecrecover` oracle models the real
scenario in which the caller produced exactly that signature with their own
key, so recovery at it yields the caller's address; on the inputs the
precompile rejects (`v` outside 27/28 after normalization, or `r` or `s` zero
or outside `[1, n-1]`) the oracle answers the zero address, as the precompile
does. -/
theorem issue_without_registry_bypass_cex :
    PVReachable (initState 1 0 0)
    ∧ (⟨5, 0, 0, fun _ => [],
        fun _ v r s =>
          if (v ≠ 27 ∧ v ≠ 28) ∨ r = 0 ∨ secp256k1N ≤ r ∨ s = 0 ∨ secp256k1N ≤ s
          then 0 else 5,
        fun _ => false, fun _ _ _ _ _ _ => false, fun _ _ => false, 0⟩ : Env).isApprovedAud 5
      = false
    ∧ (execIssueCredential
        ⟨5, 0, 0, fun _ => [],
          fun _ v r s =>
            if (v ≠ 27 ∧ v ≠ 28) ∨ r = 0 ∨ secp256k1N ≤ r ∨ s = 0 ∨ secp256k1N ≤ s
            then 0 else 5,
          fun _ => false, fun _ _ _ _ _ _ => false, fun _ _ => false, 0⟩
        1 7 9
        (serializeSig
          (0x79BE667EF9DCBBAC55A06295CE870B07029BFCDB2DCE28D959F2815B16F81798, 2, 27))
        (initState 1 0 0)).isOk = true
    ∧ (pvStep
        ⟨5, 0, 0, fun _ => [],
          fun _ v r s =>
            if (v ≠ 27 ∧ v ≠ 28) ∨ r = 0 ∨ secp256k1N ≤ r ∨ s = 0 ∨ secp256k1N ≤ s
            then 0 else 5,
          fun _ => false, fun _ _ _ _ _ _ => false, fun _ _ => false, 0⟩
        (PVOp.issueCredential 1 7 9
          (serializeSig
            (0x79BE667EF9DCBBAC55A06295CE870B07029BFCDB2DCE28D959F2815B16F81798, 2, 27)))
        (initState 1 0 0)).credentialAnchored 1 = true := by
  refine ⟨PVReachable.init 1 0 0, rfl, ?_, ?_⟩
  · rfl
  · rfl

/-- Claim C5 as amended: whenever the auditor registry is configured (a
non-zero address) — which the deployment scripts establish and
`setAuditorRegistry` preserves — a caller for whom `isApprovedAuditor`
answers false cannot issue a credential: the call reverts with "Not an
approved auditor" and the state is unchanged.  (As stated the claim fails
only in the registry-less deployment exhibited by the counterexample.) -/
theorem issue_requires_approval_when_registry_set (env : Env) (s : PVState)
    (id subject summaryHash : Nat) (signature : List Nat)
    (hreg : s.auditorRegistry ≠ 0) (happ : env.isApprovedAud env.caller = false) :
    execIssueCredential env id subject summaryHash signature s
      = Except.error ("Not an approved auditor")
    ∧ pvStep env (PVOp.issueCredential id subject summaryHash signature) s = s := by
  have herr : execIssueCredential env id subject summaryHash signature s
      = Except.error ("Not an approved auditor") := by
    unfold execIssueCredential
    refine pvRequire_neg _ _ ?_
    rintro (h | h)
    · exact hreg h
    · rw [happ] at h
      cases h
  refine ⟨herr, ?_⟩
  unfold pvStep
  rw [show pvExec env (PVOp.issueCredential id subject summaryHash signature) s
    = execIssueCredential env id subject summaryHash signature s from rfl, herr]

/-- Witness for the amended C5 at a concrete configured deployment. -/
theorem issue_requires_approval_when_registry_set_witness :
    execIssueCredential ⟨5, 0, 0, fun _ => [], fun _ _ _ _ => 5, fun _ => false,
        fun _ _ _ _ _ _ => false, fun _ _ => false, 0⟩ 1 7 9 [] (initState 1 2 0)
      = Except.error ("Not an approved auditor")
    ∧ pvStep ⟨5, 0, 0, fun _ => [], fun _ _ _ _ => 5, fun _ => false,
        fun _ _ _ _ _ _ => false, fun _ _ => false, 0⟩
        (PVOp.issueCredential 1 7 9 []) (initState 1 2 0) = initState 1 2 0 :=
  issue_requires_approval_when_registry_set
    ⟨5, 0, 0, fun _ => [], fun _ _ _ _ => 5, fun _ => false, fun _ _ _ _ _ _ => false,
      fun _ _ => false, 0⟩
    (initState 1 2 0) 1 7 9 [] (by decide) rfl

/-- Counterexample to claim C9 as stated: a deployment where the auditor
registry is configured and the caller is approved — every hypothesis of the
claim holds — but the registry collaborator's own `proofVerifier` field is
still 0, its deployment default (this ProofVerifier executes at address 3),
so the registry's `incrementCredentialCount` require "Only ProofVerifier can
increment" (src/contracts/AuditorRegistry.sol line 130) reverts the whole
`anchorCredential` transaction instead of letting it succeed. -/
theorem anchor_credential_registry_unwired_cex :
    ((⟨5, 0, 3, fun _ => [], fun _ _ _ _ => 0, fun _ => true, fun _ _ _ _ _ _ => false,
        fun _ _ => false, 0⟩ : Env).isApprovedAud 5 = true)
    ∧ (initState 1 2 0).auditorRegistry ≠ 0
    ∧ (initState 1 2 0).credentialAnchored 1 = false
    ∧ execAnchorCredential
        ⟨5, 0, 3, fun _ => [], fun _ _ _ _ => 0, fun _ => true, fun _ _ _ _ _ _ => false,
          fun _ _ => false, 0⟩ 1 9 5 (initState 1 2 0)
      = Except.error ("Only ProofVerifier can increment") := by
  refine ⟨rfl, by decide, rfl, ?_⟩
  rfl

/-- Claim C9 as amended: a legacy `anchorCredential` call by the issuer
itself, with a fresh non-zero id, a non-zero summary hash, a passing
auditor-approval check, and — the amendment the counterexample forces —
either no registry configured or the registry's `proofVerifier` wired to this
contract (the configuration the deployment scripts establish), succeeds and
stores a CredentialRecord whose signature field is the empty bytes; and the
outcome is independent of the `ecrecover` primitive — no ECDSA verification
happens on this path, unlike `issueCredential`. -/
theorem anchor_credential_no_sig_check (env : Env) (s : PVState)
    (id summaryHash issuer : Nat)
    (hissuer : issuer ≠ 0)
    (happr : s.auditorRegistry = 0 ∨ env.isApprovedAud env.caller = true)
    (hcaller : issuer = env.caller)
    (hanch : s.credentialAnchored id = false)
    (hid : id ≠ 0) (hhash : summaryHash ≠ 0)
    (hcfg : s.auditorRegistry = 0 ∨ env.selfAddr = env.regProofVerifier) :
    execAnchorCredential env id summaryHash issuer s
      = Except.ok { s with
          credentials := updMap s.credentials id ⟨id, issuer, summaryHash, env.timestamp, []⟩,
          credentialAnchored := updMap s.credentialAnchored id true }
    ∧ (∀ ec, execAnchorCredential { env with ecrec := ec } id summaryHash issuer s
        = execAnchorCredential env id summaryHash issuer s) := by
  constructor
  · unfold execAnchorCredential
    rw [pvRequire_pos _ _ hissuer, pvRequire_pos _ _ happr, pvRequire_pos _ _ hcaller,
      pvRequire_pos _ _ hanch, pvRequire_pos _ _ hid, pvRequire_pos _ _ hhash]
    by_cases hz : s.auditorRegistry = 0
    · rw [if_pos hz]
    · rw [if_neg hz]
      have hwired : env.selfAddr = env.regProofVerifier := hcfg.resolve_left hz
      have happ2 : env.isApprovedAud issuer = true := by
        rw [hcaller]
        exact happr.resolve_left hz
      unfold incrementCredentialCountCall
      rw [pvRequire_pos _ _ hwired, pvRequire_pos _ _ hissuer, pvRequire_pos _ _ happ2]
  · intro ec
    rfl

/-- Witness for the amended C9: a concrete self-anchoring call succeeds with
an empty stored signature. -/
theorem anchor_credential_no_sig_check_witness :
    execAnchorCredential ⟨5, 0, 0, fun _ => [], fun _ _ _ _ => 0, fun _ => false,
        fun _ _ _ _ _ _ => false, fun _ _ => false, 0⟩ 1 9 5 (initState 1 0 0)
      = Except.ok { initState 1 0 0 with
          credentials := updMap (initState 1 0 0).credentials 1 ⟨1, 5, 9, 0, []⟩,
          credentialAnchored := updMap (initState 1 0 0).credentialAnchored 1 true } :=
  (anchor_credential_no_sig_check
    ⟨5, 0, 0, fun _ => [], fun _ _ _ _ => 0, fun _ => false, fun _ _ _ _ _ _ => false,
      fun _ _ => false, 0⟩
    (initState 1 0 0) 1 9 5 (by decide) (Or.inl rfl) rfl rfl (by decide) (by decide)
    (Or.inl rfl)).1

end Polyverify
